import Mathlib

/-!
Verification of the consent state-transition protocol of the ZKCookies repository
against its source.

Server side (src/server.js, and the worker handler embedded in src/vite.config.ts):
JavaScript strings are modelled by Lean `String`; a JS value that may be `undefined`
(an out-of-range array read) is modelled by `Option String`.  The two external
primitives the handler calls are kept abstract parameters:
`parse : String → Option Int` stands for the JS `BigInt` constructor (`none` models
a thrown `SyntaxError`/`TypeError`), and `H : Int → Nat → String` stands for
`poseidonHash([BigInt(commitment), BigInt(leafCount)]).toString()` — the sha256
placeholder of src/server.js line 41 (and the TextEncoder placeholder of the
worker), both deterministic functions.

Circuit side (src/unnamed/part_003, `ConsentCircuit`): field elements are `Nat`
reduced mod the BN254 scalar prime `P`; the circomlib comparators included by the
circuit are transcribed from their standard definitions (LessThan(n) constrains
`in0 + 2^n - in1` to n+1 bits via Num2Bits and outputs 1 minus the top bit); the
Poseidon hash and the SMT verifier are external primitives kept abstract.
-/

namespace ZKCookies

/-- Mirror of `treeState` from src/server.js lines 32-36: root string (initially
the sentinel "0"), the Map of leaves (only its insertion-ordered key list is
modelled, since the stored values are never read), and the nullifier Set.
Keys and set members are `Option String` because the ZK branch can feed
`undefined` (an out-of-range `publicSignals` read) into them. -/
structure TreeState where
  root : String
  leaves : List (Option String)
  nullifiers : List (Option String)
  deriving DecidableEq

/-- The state created at server start (src/server.js lines 32-36). -/
def initialTreeState : TreeState := { root := "0", leaves := [], nullifiers := [] }

/-- JS `Map.set k v` restricted to the key list: an existing key keeps its
position and the size is unchanged; a new key is appended. -/
def mapSet (keys : List (Option String)) (k : Option String) : List (Option String) :=
  if k ∈ keys then keys else keys ++ [k]

/-- `updateMerkleTree` from src/server.js lines 49-55 (identical logic in the
worker handler of src/vite.config.ts): set the commitment in the leaves map,
then compute `H(BigInt(commitment), leafCount)` as the new root.  When
`BigInt(commitment)` throws (`parse` returns `none`), the leaves map has already
been mutated but the root is not updated, and the exception propagates: the
first component `none` models the throw. -/
def updateMerkleTree (parse : String → Option Int) (H : Int → Nat → String)
    (commitment : Option String) (s : TreeState) : Option String × TreeState :=
  let leaves := mapSet s.leaves commitment
  let leafCount := leaves.length
  match commitment.bind parse with
  | none => (none, { s with leaves := leaves })
  | some c =>
    let newRoot := H c leafCount
    (some newRoot, { root := newRoot, leaves := leaves, nullifiers := s.nullifiers })

/-- `verifyOffchainSignature` from src/server.js lines 58-93.  `now` is the
server clock value `Math.floor(Date.now() / 1000)`; `timestamp` is assumed to
be an integer-valued JS number.  The `domainSalt` and `newConsent` parameters
are accepted and ignored, exactly as in the source.  A failed `BigInt` parse of
the commitment or nullifier throws inside the function's own try block and
yields `false`. -/
def verifyOffchainSignature (parse : String → Option Int) (now : Int)
    (signature : String) (domainSalt : Int) (newConsent : Nat)
    (timestamp : Int) (commitment nullifier : String) : Bool :=
  if 86400 < (now - timestamp).natAbs then false
  else
    match parse commitment, parse nullifier with
    | some c, some n =>
      if c = 0 || n = 0 then false
      else if signature = "" || signature.length < 16 then false
      else true
    | _, _ => false

/-- The distinct terminal outcomes of the `/verify` handler in src/server.js. -/
inductive VerifyOutcome where
  /-- 400 "Missing publicSignals" (line 101) -/
  | missingSignals
  /-- 400 "Offchain proof verification failed" (line 135) -/
  | offchainFailed
  /-- 400 "ZK proof verification failed" (line 145) -/
  | zkFailed
  /-- 400 "ZK verification error" (exception from groth16.verify, line 155) -/
  | zkError
  /-- 400 "No valid proof provided (neither ZK nor offchain)" (line 157) -/
  | noProof
  /-- 400 "Nullifier already used (double-spend detected)" (line 161) -/
  | nullifierReused
  /-- 400 "Merkle root mismatch" (line 166) -/
  | staleRoot
  /-- 500 "Internal server error" (outer catch, line 182) -/
  | internalError
  /-- 200 success with the resulting root (lines 175-180) -/
  | admitted (root : String)
  deriving DecidableEq

/-- HTTP status attached to each outcome by src/server.js. -/
def statusOf : VerifyOutcome → Nat
  | .admitted _ => 200
  | .internalError => 500
  | _ => 400

/-- The `offchain` object of a request body, assumed well-typed (string fields,
numeric timestamp), as produced by the client in src/unnamed/part_000. -/
structure OffchainData where
  commitment : String
  nullifier : String
  signature : String
  timestamp : Int
  deriving DecidableEq

/-- A `/verify` request body.  `proof := none` models an absent or falsy proof
field, `publicSignals := none` an absent or falsy publicSignals field (a
present array, even empty, is truthy), `offchain := none` an absent or falsy
offchain field. -/
structure VerifyRequest where
  proof : Option String
  publicSignals : Option (List String)
  offchain : Option OffchainData
  deriving DecidableEq

/-- `claimedRoot = publicSignals[4] || '0'` from src/server.js line 111: an
out-of-range read gives `undefined` and an empty string is falsy, so both
default to the sentinel "0". -/
def offchainClaimedRoot (ps : List String) : String :=
  match ps[4]? with
  | some r => if r = "" then "0" else r
  | none => "0"

/-- The part of the `/verify` handler (src/server.js lines 97-157) that runs
before the nullifier check: request-shape checks and the offchain / ZK proof
branch.  It reads no tree state.  On success it yields the extracted
`(newConsentCommitment, nullifier, claimedRoot)` triple; `Except.error` carries
the early-return outcome.  `vkey` is the truthiness of the loaded verification
key; `zkVerify pf ps` is the abstract result of `groth16.verify` (`none` models
a thrown exception).  In the offchain branch, `BigInt(publicSignals[1])` is
evaluated at the call site of `verifyOffchainSignature`, so an out-of-range or
unparseable `publicSignals[1]` throws to the outer catch (500). -/
def proofStage (parse : String → Option Int) (now : Int) (vkey : Bool)
    (zkVerify : String → List String → Option Bool) (req : VerifyRequest) :
    Except VerifyOutcome (Option String × Option String × Option String) :=
  match req.publicSignals with
  | none => .error .missingSignals
  | some ps =>
    match req.offchain with
    | some o =>
      let claimedRoot := offchainClaimedRoot ps
      match ps[1]? with
      | none => .error .internalError
      | some dsStr =>
        match parse dsStr with
        | none => .error .internalError
        | some ds =>
          if verifyOffchainSignature parse now o.signature ds 255 o.timestamp
              o.commitment o.nullifier
          then .ok (some o.commitment, some o.nullifier, some claimedRoot)
          else .error .offchainFailed
    | none =>
      match req.proof with
      | some pf =>
        if vkey then
          match zkVerify pf ps with
          | none => .error .zkError
          | some false => .error .zkFailed
          | some true => .ok (ps[2]?, ps[3]?, ps[4]?)
        else .error .noProof
      | none => .error .noProof

/-- The tail of the `/verify` handler (src/server.js lines 159-180): the
nullifier-reuse check, the root-staleness check, then `recordNullifier` and
`updateMerkleTree`.  A throw inside `updateMerkleTree` reaches the outer catch
with the nullifier already recorded and the leaf already set. -/
def afterVerified (parse : String → Option Int) (H : Int → Nat → String)
    (commitment nullifier claimedRoot : Option String) (s : TreeState) :
    VerifyOutcome × TreeState :=
  if nullifier ∈ s.nullifiers then (.nullifierReused, s)
  else if claimedRoot ≠ some "0" ∧ claimedRoot ≠ some s.root then (.staleRoot, s)
  else
    match updateMerkleTree parse H commitment
        { s with nullifiers := s.nullifiers ++ [nullifier] } with
    | (some r, s₂) => (.admitted r, s₂)
    | (none, s₂) => (.internalError, s₂)

/-- The whole `/verify` handler of src/server.js: outcome and resulting state. -/
def verifyHandler (parse : String → Option Int) (H : Int → Nat → String)
    (now : Int) (vkey : Bool) (zkVerify : String → List String → Option Bool)
    (req : VerifyRequest) (s : TreeState) : VerifyOutcome × TreeState :=
  match proofStage parse now vkey zkVerify req with
  | .error e => (e, s)
  | .ok (c, n, cr) => afterVerified parse H c n cr s

/-- Folding a sequence of admitted commitments through `updateMerkleTree`. -/
def insertSeq (parse : String → Option Int) (H : Int → Nat → String)
    (cs : List (Option String)) (s : TreeState) : TreeState :=
  cs.foldl (fun st c => (updateMerkleTree parse H c st).2) s

/-- Root accumulator over an insertion history, tracking only the leaf-key list
and the root: the reduced state `updateMerkleTree` actually depends on. -/
def rootAcc (parse : String → Option Int) (H : Int → Nat → String)
    (keys : List (Option String)) (root : String) :
    List (Option String) → String
  | [] => root
  | c :: cs =>
    let ks := mapSet keys c
    match c.bind parse with
    | none => rootAcc parse H ks root cs
    | some v => rootAcc parse H ks (H v ks.length) cs

/-- Leaf-key list after an insertion history. -/
def leavesAcc (keys : List (Option String)) : List (Option String) → List (Option String)
  | [] => keys
  | c :: cs => leavesAcc (mapSet keys c) cs

/-- Second definition following the spec's words (§4.3 invariant: "the root is
a pure function of the sequence of previously inserted commitments"): the root
determined by the ordered insertion history alone, starting from the empty
accumulator. -/
def rootOfHistory (parse : String → Option Int) (H : Int → Nat → String)
    (cs : List (Option String)) : String :=
  rootAcc parse H [] "0" cs

namespace Circuit

/-- The BN254 scalar field prime, circom's default field (src/unnamed/part_003
is compiled with `pragma circom 2.1.0` over this field). -/
def P : Nat :=
  21888242871839275222246405745257275088548364400416034343698204186575808495617

/-- Field subtraction of canonical representatives. -/
def fsub (a b : Nat) : Nat := (a % P + (P - b % P)) % P

/-- The value fed to `Num2Bits(n+1)` inside circomlib's `LessThan(n)`:
`in[0] + 2^n - in[1]` computed in the field. -/
def lessThanForcedInput (n a b : Nat) : Nat := (a % P + 2 ^ n + (P - b % P)) % P

/-- circomlib `LessThan(n)` with its output constrained to 1 is satisfiable iff
the `Num2Bits(n+1)` input has canonical representative below `2^n`: the bit
decomposition exists iff the representative is below `2^(n+1)`, and the output
`1 - out[n]` equals 1 iff bit n is 0. -/
def lessThanOut1Sat (n a b : Nat) : Prop := lessThanForcedInput n a b < 2 ^ n

/-- circomlib `GreaterEqThan(n)` with output constrained to 1: it instantiates
`LessThan(n)` with `lt.in[0] = in[1]`, `lt.in[1] = in[0] + 1`. -/
def greaterEqThanOut1Sat (n a b : Nat) : Prop := lessThanOut1Sat n b ((a + 1) % P)

/-- circomlib `LessEqThan(n)` with output constrained to 1: it instantiates
`LessThan(n)` with `lt.in[1] = in[1] + 1`. -/
def lessEqThanOut1Sat (n a b : Nat) : Prop := lessThanOut1Sat n a ((b + 1) % P)

/-- The constant of src/unnamed/part_003 line 68: two years in seconds. -/
def TWO_YEARS : Nat := 63072000

/-- The `consentCheck` component of src/unnamed/part_003 lines 62-65:
`GreaterEqThan(8)` on `(newConsent, oldConsent)` with output forced to 1. -/
def consentCheckSat (oldConsent newConsent : Nat) : Prop :=
  greaterEqThanOut1Sat 8 newConsent oldConsent

/-- The `timeCheck` component of src/unnamed/part_003 lines 67-71:
`LessEqThan(32)` on `(currentTime - timestamp, TWO_YEARS)` with output forced
to 1; the subtraction is field subtraction. -/
def timeCheckSat (currentTime timestamp : Nat) : Prop :=
  lessEqThanOut1Sat 32 (fsub currentTime timestamp) TWO_YEARS

/-- Satisfiability of the full `ConsentCircuit` of src/unnamed/part_003 at a
given assignment.  The Poseidon hashers and the `SMTVerifier(20)` component are
external circomlib primitives and are abstract parameters; all signals are
field elements, i.e. compared modulo `P`. -/
def ConsentCircuitSat
    (poseidon2 : Nat → Nat → Nat) (poseidon3 : Nat → Nat → Nat → Nat)
    (smtVerifies : Nat → (Fin 20 → Nat) → (Fin 20 → Nat) → Nat → Prop)
    (currentTime domainSalt newConsentCommitment nullifier root
      identitySecret oldConsent newConsent oldTimestamp timestamp : Nat)
    (pathElements pathIndices : Fin 20 → Nat) : Prop :=
  smtVerifies (poseidon3 oldConsent oldTimestamp identitySecret)
      pathElements pathIndices root ∧
  nullifier % P = poseidon2 identitySecret domainSalt % P ∧
  newConsentCommitment % P = poseidon3 newConsent timestamp identitySecret % P ∧
  consentCheckSat oldConsent newConsent ∧
  timeCheckSat currentTime timestamp

end Circuit

/-! Concrete instances used by witness theorems. -/

/-- A concrete stand-in for the JS `BigInt` constructor, covering the strings
the witnesses use (kernel-reducible, unlike the library string parsers). -/
def parseW : String → Option Int := fun s =>
  if s = "0" then some 0
  else if s = "5" then some 5
  else if s = "7" then some 7
  else if s = "11" then some 11
  else if s = "22" then some 22
  else none

/-- A concrete deterministic stand-in for the placeholder hash
`poseidonHash([c, k]).toString()` (kernel-reducible by construction). -/
def hashW : Int → Nat → String := fun v k =>
  String.mk (List.replicate (v.natAbs + k) 'h')

/-- A concrete groth16 result function for offchain-only scenarios. -/
def zkNoneW : String → List String → Option Bool := fun _ _ => none

/-- A concrete well-formed offchain request with the full five public signals. -/
def reqA : VerifyRequest :=
  { proof := none
    publicSignals := some ["0", "7", "11", "22", "0"]
    offchain := some { commitment := "11", nullifier := "22",
                       signature := "abcdefgh12345678", timestamp := 0 } }

/-- The same offchain request with only four public signals (no claimed root). -/
def reqC : VerifyRequest :=
  { reqA with publicSignals := some ["0", "7", "11", "22"] }

/-- The same offchain request claiming a root that is neither the sentinel nor
the current root of `initialTreeState`. -/
def reqB : VerifyRequest :=
  { reqA with publicSignals := some ["0", "7", "11", "22", "5"] }

/-- A request body with the publicSignals field absent. -/
def req0 : VerifyRequest := { proof := none, publicSignals := none, offchain := none }

/-- The state reached by admitting `reqA` from the initial state. -/
def stateA : TreeState :=
  { root := hashW 11 1, leaves := [some "11"], nullifiers := [some "22"] }

/-! Helper lemmas shared by the claim theorems. -/

theorem mem_mapSet_self (L : List (Option String)) (k : Option String) :
    k ∈ mapSet L k := by
  unfold mapSet
  split
  · assumption
  · exact List.mem_append_right _ (List.mem_singleton_self k)

theorem mapSet_eq_of_mem {L : List (Option String)} {k : Option String}
    (h : k ∈ L) : mapSet L k = L :=
  if_pos h

theorem updateMerkleTree_nullifiers (parse : String → Option Int)
    (H : Int → Nat → String) (c : Option String) (s : TreeState) :
    ((updateMerkleTree parse H c s).2).nullifiers = s.nullifiers := by
  rcases h : c.bind parse with _ | v <;> simp [updateMerkleTree, h]

/-- C9: in offchain mode, `verifyOffchainSignature` returns true exactly when
the timestamp is within 86400 seconds of the server clock, commitment and
nullifier parse as nonzero big integers, and the signature string has length at
least 16; the signature content is never compared to anything derived from the
identity secret, so any string of sufficient length passes. -/
theorem verifyOffchainSignature_iff (parse : String → Option Int) (now : Int)
    (signature : String) (domainSalt : Int) (newConsent : Nat)
    (timestamp : Int) (commitment nullifier : String) :
    verifyOffchainSignature parse now signature domainSalt newConsent timestamp
        commitment nullifier = true ↔
      ((now - timestamp).natAbs ≤ 86400 ∧
        (∃ c, parse commitment = some c ∧ c ≠ 0) ∧
        (∃ n, parse nullifier = some n ∧ n ≠ 0) ∧
        16 ≤ signature.length) := by
  unfold verifyOffchainSignature
  rcases hc : parse commitment with _ | c <;>
    rcases hn : parse nullifier with _ | n <;>
    by_cases hsig : signature = "" <;>
    subst_vars <;>
    split_ifs <;>
    simp_all

/-- C10: re-inserting a commitment that is already a leaf does not grow the
leaves map (the map keeps its size) and the resulting root is `H(c, count)`
with the unchanged count; in particular a second `updateMerkleTree` call with
the same commitment returns exactly the same root and state as the first, so
admitting the same commitment under a second nullifier never appends a second
leaf and re-inserting the most recent commitment leaves the root unchanged. -/
theorem updateMerkleTree_reinsert (parse : String → Option Int)
    (H : Int → Nat → String) (c : Option String) (s : TreeState) :
    updateMerkleTree parse H c ((updateMerkleTree parse H c s).2) =
        updateMerkleTree parse H c s ∧
      (c ∈ s.leaves →
        ((updateMerkleTree parse H c s).2).leaves = s.leaves ∧
        ∀ v, c.bind parse = some v →
          (updateMerkleTree parse H c s).1 = some (H v s.leaves.length)) := by
  constructor
  · rcases h : c.bind parse with _ | v <;>
      simp [updateMerkleTree, h, mapSet_eq_of_mem (mem_mapSet_self _ _)]
  · intro hmem
    rcases h : c.bind parse with _ | v <;>
      simp [updateMerkleTree, h, mapSet_eq_of_mem hmem]

/-- Witness for C10: re-inserting the already-present commitment "11" into the
one-leaf state `stateA` keeps the leaf list and yields root `H(11, 1)`. -/
theorem updateMerkleTree_reinsert_witness :
    ((updateMerkleTree parseW hashW (some "11") stateA).2).leaves = stateA.leaves ∧
      (updateMerkleTree parseW hashW (some "11") stateA).1 =
        some (hashW 11 stateA.leaves.length) := by
  have h := (updateMerkleTree_reinsert parseW hashW (some "11") stateA).2 (by decide)
  exact ⟨h.1, h.2 11 (by decide)⟩

theorem proofStage_no_admitted_error (parse : String → Option Int) (now : Int)
    (vkey : Bool) (zk : String → List String → Option Bool)
    (req : VerifyRequest) (r : String) :
    proofStage parse now vkey zk req ≠ .error (.admitted r) := by
  rcases hsig : req.publicSignals with _ | ps
  · simp [proofStage, hsig]
  rcases hoc : req.offchain with _ | o
  · rcases hpf : req.proof with _ | pf
    · simp [proofStage, hsig, hoc, hpf]
    · by_cases hv : vkey
      · rcases hzk : zk pf ps with _ | b
        · simp [proofStage, hsig, hoc, hpf, hv, hzk]
        · rcases b <;> simp [proofStage, hsig, hoc, hpf, hv, hzk]
      · simp [proofStage, hsig, hoc, hpf, hv]
  · rcases h1 : ps[1]? with _ | dsStr
    · simp [proofStage, hsig, hoc, h1]
    · rcases h2 : parse dsStr with _ | ds
      · simp [proofStage, hsig, hoc, h1, h2]
      · by_cases hvs : verifyOffchainSignature parse now o.signature ds 255
            o.timestamp o.commitment o.nullifier = true
        · simp [proofStage, hsig, hoc, h1, h2, hvs]
        · simp [proofStage, hsig, hoc, h1, h2, hvs]

theorem afterVerified_admitted_inv {parse : String → Option Int}
    {H : Int → Nat → String} {c n cr : Option String} {s : TreeState}
    {r : String} {s₁ : TreeState}
    (h : afterVerified parse H c n cr s = (.admitted r, s₁)) :
    n ∉ s.nullifiers ∧ s₁.nullifiers = s.nullifiers ++ [n] := by
  unfold afterVerified at h
  split_ifs at h with h1 h2
  · simp at h
  · simp at h
  · refine ⟨h1, ?_⟩
    rcases hu : updateMerkleTree parse H c { s with nullifiers := s.nullifiers ++ [n] }
      with ⟨hr, s₂⟩
    rw [hu] at h
    have hnul := updateMerkleTree_nullifiers parse H c
      { s with nullifiers := s.nullifiers ++ [n] }
    rw [hu] at hnul
    rcases hr with _ | rr <;> simp at h
    obtain ⟨-, hs⟩ := h
    rw [← hs]
    exact hnul

/-- C1: a request whose extracted nullifier is already recorded is rejected
with NullifierReused (HTTP 400) and the accumulator and nullifier set are
returned untouched; and a request that was just admitted, resubmitted
unchanged against the resulting state, yields Admitted the first time and
NullifierReused the second, again without mutation. -/
theorem nullifier_replay_rejected (parse : String → Option Int)
    (H : Int → Nat → String) (now : Int) (vkey : Bool)
    (zk : String → List String → Option Bool) (req : VerifyRequest)
    (s : TreeState) (c n cr : Option String) :
    (proofStage parse now vkey zk req = .ok (c, n, cr) → n ∈ s.nullifiers →
      verifyHandler parse H now vkey zk req s = (.nullifierReused, s) ∧
        statusOf .nullifierReused = 400) ∧
    ∀ r s₁, verifyHandler parse H now vkey zk req s = (.admitted r, s₁) →
      verifyHandler parse H now vkey zk req s₁ = (.nullifierReused, s₁) := by
  constructor
  · intro hok hmem
    refine ⟨?_, rfl⟩
    simp only [verifyHandler, hok]
    unfold afterVerified
    rw [if_pos hmem]
  · intro r s₁ h
    cases hps : proofStage parse now vkey zk req with
    | error e =>
      unfold verifyHandler at h
      rw [hps] at h
      simp at h
      obtain ⟨he, -⟩ := h
      rw [he] at hps
      exact absurd hps (proofStage_no_admitted_error parse now vkey zk req r)
    | ok t =>
      obtain ⟨c₀, n₀, cr₀⟩ := t
      unfold verifyHandler at h
      rw [hps] at h
      change afterVerified parse H c₀ n₀ cr₀ s = (.admitted r, s₁) at h
      have hinv := afterVerified_admitted_inv h
      simp only [verifyHandler, hps]
      unfold afterVerified
      rw [if_pos (hinv.2 ▸ List.mem_append_right _ (List.mem_singleton_self n₀))]

/-- Witness for C1: the concrete offchain request `reqA` is admitted from the
initial state (hypothesis discharged by evaluation) and, resubmitted against
the resulting state `stateA`, is rejected with NullifierReused, unchanged
state. -/
theorem nullifier_replay_rejected_witness :
    verifyHandler parseW hashW 0 false zkNoneW reqA stateA =
      (.nullifierReused, stateA) :=
  (nullifier_replay_rejected parseW hashW 0 false zkNoneW reqA initialTreeState
      (some "11") (some "22") (some "0")).2 (hashW 11 1) stateA (by decide)

/-- C4: for a request that passes the proof stage and carries a fresh
nullifier, the claimed root is accepted iff it equals the sentinel "0" or the
accumulator's current root; any other claimed root produces exactly the
StaleRoot rejection (HTTP 400) with the state unchanged. -/
theorem stale_root_check (parse : String → Option Int) (H : Int → Nat → String)
    (now : Int) (vkey : Bool) (zk : String → List String → Option Bool)
    (req : VerifyRequest) (s : TreeState) (c n cr : Option String)
    (hok : proofStage parse now vkey zk req = .ok (c, n, cr))
    (hn : n ∉ s.nullifiers) :
    (verifyHandler parse H now vkey zk req s = (.staleRoot, s) ↔
      (cr ≠ some "0" ∧ cr ≠ some s.root)) ∧ statusOf .staleRoot = 400 := by
  refine ⟨?_, rfl⟩
  simp only [verifyHandler, hok]
  unfold afterVerified
  rw [if_neg hn]
  by_cases hcr : cr ≠ some "0" ∧ cr ≠ some s.root
  · rw [if_pos hcr]
    simp [hcr]
  · rw [if_neg hcr]
    constructor
    · intro h
      rcases hu : updateMerkleTree parse H c { s with nullifiers := s.nullifiers ++ [n] }
        with ⟨hr, s₂⟩
      rw [hu] at h
      rcases hr with _ | rr <;> simp at h
    · intro h
      exact absurd h hcr

/-- Witness for C4: the concrete request `reqB` claims root "5", which is
neither the sentinel nor the current root of the initial state, and is
rejected with StaleRoot, state unchanged. -/
theorem stale_root_check_witness :
    verifyHandler parseW hashW 0 false zkNoneW reqB initialTreeState =
      (.staleRoot, initialTreeState) :=
  ((stale_root_check parseW hashW 0 false zkNoneW reqB initialTreeState
      (some "11") (some "22") (some "5") rfl (by decide)).1).mpr (by decide)

/-- C5: the handler's checks are strictly ordered: once the proof stage has
passed, a recorded nullifier forces the NullifierReused rejection even when
the claimed root is also stale, and a StaleRoot rejection can only arise for a
request whose nullifier is fresh. -/
theorem nullifier_checked_before_root (parse : String → Option Int)
    (H : Int → Nat → String) (now : Int) (vkey : Bool)
    (zk : String → List String → Option Bool) (req : VerifyRequest)
    (s : TreeState) (c n cr : Option String)
    (hok : proofStage parse now vkey zk req = .ok (c, n, cr)) :
    (n ∈ s.nullifiers →
      verifyHandler parse H now vkey zk req s = (.nullifierReused, s)) ∧
    ((verifyHandler parse H now vkey zk req s).1 = .staleRoot →
      n ∉ s.nullifiers) := by
  constructor
  · intro hmem
    simp only [verifyHandler, hok]
    unfold afterVerified
    rw [if_pos hmem]
  · intro hst hmem
    unfold verifyHandler at hst
    rw [hok] at hst
    change (afterVerified parse H c n cr s).1 = VerifyOutcome.staleRoot at hst
    unfold afterVerified at hst
    rw [if_pos hmem] at hst
    simp at hst

/-- Witness for C5: against `stateA` the request `reqB` has both a reused
nullifier and a stale claimed root "5", and the handler answers
NullifierReused, not StaleRoot. -/
theorem nullifier_checked_before_root_witness :
    verifyHandler parseW hashW 0 false zkNoneW reqB stateA =
      (.nullifierReused, stateA) :=
  (nullifier_checked_before_root parseW hashW 0 false zkNoneW reqB stateA
      (some "11") (some "22") (some "5") rfl).1 (by decide)

theorem proofStage_no_staleRoot_error (parse : String → Option Int) (now : Int)
    (vkey : Bool) (zk : String → List String → Option Bool)
    (req : VerifyRequest) :
    proofStage parse now vkey zk req ≠ .error .staleRoot := by
  rcases hsig : req.publicSignals with _ | ps
  · simp [proofStage, hsig]
  rcases hoc : req.offchain with _ | o
  · rcases hpf : req.proof with _ | pf
    · simp [proofStage, hsig, hoc, hpf]
    · by_cases hv : vkey
      · rcases hzk : zk pf ps with _ | b
        · simp [proofStage, hsig, hoc, hpf, hv, hzk]
        · rcases b <;> simp [proofStage, hsig, hoc, hpf, hv, hzk]
      · simp [proofStage, hsig, hoc, hpf, hv]
  · rcases h1 : ps[1]? with _ | dsStr
    · simp [proofStage, hsig, hoc, h1]
    · rcases h2 : parse dsStr with _ | ds
      · simp [proofStage, hsig, hoc, h1, h2]
      · by_cases hvs : verifyOffchainSignature parse now o.signature ds 255
            o.timestamp o.commitment o.nullifier = true
        · simp [proofStage, hsig, hoc, h1, h2, hvs]
        · simp [proofStage, hsig, hoc, h1, h2, hvs]

theorem proofStage_offchain_ok_inv (parse : String → Option Int) (now : Int)
    (vkey : Bool) (zk : String → List String → Option Bool)
    (req : VerifyRequest) (o : OffchainData) (ps : List String)
    (c n cr : Option String)
    (hoc : req.offchain = some o) (hsig : req.publicSignals = some ps)
    (h : proofStage parse now vkey zk req = .ok (c, n, cr)) :
    c = some o.commitment ∧ n = some o.nullifier ∧
      cr = some (offchainClaimedRoot ps) := by
  rcases h1 : ps[1]? with _ | dsStr
  · simp [proofStage, hsig, hoc, h1] at h
  · rcases h2 : parse dsStr with _ | ds
    · simp [proofStage, hsig, hoc, h1, h2] at h
    · by_cases hvs : verifyOffchainSignature parse now o.signature ds 255
          o.timestamp o.commitment o.nullifier = true
      · simp [proofStage, hsig, hoc, h1, h2, hvs] at h
        exact ⟨h.1.symm, h.2.1.symm, h.2.2.symm⟩
      · simp [proofStage, hsig, hoc, h1, h2, hvs] at h

/-- Counterexample for C6: the concrete offchain request `reqC` carries only
four public signals, so the expected five are not all present, yet the handler
admits it with HTTP 200 and mutates the state (leaf inserted, root changed,
nullifier recorded) instead of rejecting it as malformed with HTTP 400. -/
theorem four_signals_request_admitted :
    verifyHandler parseW hashW 0 false zkNoneW reqC initialTreeState =
        (.admitted (hashW 11 1), stateA) ∧
      statusOf (.admitted (hashW 11 1)) = 200 :=
  ⟨by decide, rfl⟩

/-- C6 amended: at the Received step the handler only rejects a request whose
publicSignals field is absent or falsy, with 400 "Missing publicSignals" and
no state mutation; the presence of five well-typed public signals is not
validated there.  A request with signals but neither a truthy offchain object
nor a usable ZK proof is rejected with 400 "No valid proof provided". -/
theorem malformed_request_checks (parse : String → Option Int)
    (H : Int → Nat → String) (now : Int) (vkey : Bool)
    (zk : String → List String → Option Bool) (req : VerifyRequest)
    (s : TreeState) :
    (req.publicSignals = none →
      verifyHandler parse H now vkey zk req s = (.missingSignals, s) ∧
        statusOf .missingSignals = 400) ∧
    (req.publicSignals ≠ none → req.offchain = none →
      (req.proof = none ∨ vkey = false) →
      verifyHandler parse H now vkey zk req s = (.noProof, s) ∧
        statusOf .noProof = 400) := by
  constructor
  · intro hsig
    exact ⟨by simp [verifyHandler, proofStage, hsig], rfl⟩
  · intro hsig hoc hnp
    refine ⟨?_, rfl⟩
    rcases hps : req.publicSignals with _ | ps
    · exact absurd hps hsig
    rcases hpf : req.proof with _ | pf
    · simp [verifyHandler, proofStage, hps, hoc, hpf]
    · rcases hnp with h | h
      · rw [hpf] at h
        cases h
      · simp [verifyHandler, proofStage, hps, hoc, hpf, h]

/-- Witness for the C6 amended claim: the request with no publicSignals field
is rejected with MalformedRequest from the initial state. -/
theorem malformed_request_checks_witness :
    verifyHandler parseW hashW 0 false zkNoneW req0 initialTreeState =
      (.missingSignals, initialTreeState) :=
  ((malformed_request_checks parseW hashW 0 false zkNoneW req0
      initialTreeState).1 rfl).1

/-- C8: for an offchain-mode request whose publicSignals array has no fifth
element, or whose fifth element is the falsy empty string, the claimed root
defaults to the sentinel "0", so against every accumulator state the handler
never answers StaleRoot: the root-staleness check unconditionally passes. -/
theorem missing_fifth_signal_root_check_passes (parse : String → Option Int)
    (H : Int → Nat → String) (now : Int) (vkey : Bool)
    (zk : String → List String → Option Bool) (req : VerifyRequest)
    (o : OffchainData) (ps : List String)
    (hoc : req.offchain = some o) (hsig : req.publicSignals = some ps)
    (h4 : ps[4]? = none ∨ ps[4]? = some "") :
    offchainClaimedRoot ps = "0" ∧
      ∀ s, (verifyHandler parse H now vkey zk req s).1 ≠ .staleRoot := by
  have hcr : offchainClaimedRoot ps = "0" := by
    rcases h4 with h | h <;> simp [offchainClaimedRoot, h]
  refine ⟨hcr, ?_⟩
  intro s
  cases hstage : proofStage parse now vkey zk req with
  | error e =>
    simp only [verifyHandler, hstage]
    intro hcontra
    rw [hcontra] at hstage
    exact proofStage_no_staleRoot_error parse now vkey zk req hstage
  | ok t =>
    obtain ⟨c₀, n₀, cr₀⟩ := t
    obtain ⟨-, -, hcr0⟩ := proofStage_offchain_ok_inv parse now vkey zk req o ps
      c₀ n₀ cr₀ hoc hsig hstage
    simp only [verifyHandler, hstage]
    rw [hcr0, hcr]
    unfold afterVerified
    by_cases hmem : n₀ ∈ s.nullifiers
    · rw [if_pos hmem]
      simp
    · rw [if_neg hmem, if_neg (by simp)]
      rcases hu : updateMerkleTree parse H c₀
          { s with nullifiers := s.nullifiers ++ [n₀] } with ⟨hr, s₂⟩
      rcases hr with _ | rr <;> simp

/-- Witness for C8: the four-signal request `reqC` can never draw a StaleRoot
answer, here against the advanced state `stateA` whose root is not "0". -/
theorem missing_fifth_signal_witness :
    (verifyHandler parseW hashW 0 false zkNoneW reqC stateA).1 ≠ .staleRoot :=
  (missing_fifth_signal_root_check_passes parseW hashW 0 false zkNoneW reqC
      _ _ rfl rfl (Or.inl rfl)).2 stateA

theorem insertSeq_acc (parse : String → Option Int) (H : Int → Nat → String)
    (cs : List (Option String)) :
    ∀ s : TreeState, insertSeq parse H cs s =
      { root := rootAcc parse H s.leaves s.root cs,
        leaves := leavesAcc s.leaves cs,
        nullifiers := s.nullifiers } := by
  induction cs with
  | nil => intro s; rfl
  | cons c cs ih =>
    intro s
    show insertSeq parse H cs (updateMerkleTree parse H c s).2 = _
    rcases h : c.bind parse with _ | v <;>
      simp [updateMerkleTree, h, ih, rootAcc, leavesAcc]

/-- C7: the accumulator root is a deterministic pure function of the ordered
insertion history: from the empty tree (root sentinel "0", no leaves),
whatever the instance's nullifier set, inserting a commitment sequence yields
the root `rootOfHistory` computes from the sequence alone, so two instances or
process restarts replaying the same ordered history reach the same root. -/
theorem root_deterministic (parse : String → Option Int) (H : Int → Nat → String)
    (cs ns₁ ns₂ : List (Option String)) :
    (insertSeq parse H cs { root := "0", leaves := [], nullifiers := ns₁ }).root =
        rootOfHistory parse H cs ∧
      (insertSeq parse H cs { root := "0", leaves := [], nullifiers := ns₁ }).root =
        (insertSeq parse H cs { root := "0", leaves := [], nullifiers := ns₂ }).root := by
  constructor
  · simp [insertSeq_acc, rootOfHistory]
  · simp [insertSeq_acc]

theorem consentCheckSat_not_of_downgrade (old new : Nat)
    (hold : old < 256) (hnew : new < 256) (hdown : new < old) :
    ¬ Circuit.consentCheckSat old new := by
  unfold Circuit.consentCheckSat Circuit.greaterEqThanOut1Sat
    Circuit.lessThanOut1Sat Circuit.lessThanForcedInput
  have hP : 1000 < Circuit.P := by norm_num [Circuit.P]
  have h1 : (new + 1) % Circuit.P = new + 1 := Nat.mod_eq_of_lt (by omega)
  have h2 : old % Circuit.P = old := Nat.mod_eq_of_lt (by omega)
  rw [h2, h1, h1]
  have heq : old + 2 ^ 8 + (Circuit.P - (new + 1)) =
      Circuit.P + (old + 255 - new) := by
    have : (2 : Nat) ^ 8 = 256 := by norm_num
    omega
  rw [heq, Nat.add_mod_left]
  have hsmall : (old + 255 - new) % Circuit.P = old + 255 - new :=
    Nat.mod_eq_of_lt (by omega)
  rw [hsmall]
  have : (2 : Nat) ^ 8 = 256 := by norm_num
  omega

/-- C2: for any assignment of the ConsentCircuit with 8-bit consent values and
newConsent < oldConsent, the consentCheck constraint fails, so the predicate
is unsatisfiable for every instantiation of the external Poseidon and SMT
components: no witness for a consent downgrade exists. -/
theorem consent_downgrade_unsat
    (poseidon2 : Nat → Nat → Nat) (poseidon3 : Nat → Nat → Nat → Nat)
    (smtVerifies : Nat → (Fin 20 → Nat) → (Fin 20 → Nat) → Nat → Prop)
    (currentTime domainSalt newConsentCommitment nullifier root
      identitySecret oldConsent newConsent oldTimestamp timestamp : Nat)
    (pathElements pathIndices : Fin 20 → Nat)
    (hold : oldConsent < 256) (hnew : newConsent < 256)
    (hdown : newConsent < oldConsent) :
    ¬ Circuit.ConsentCircuitSat poseidon2 poseidon3 smtVerifies
        currentTime domainSalt newConsentCommitment nullifier root
        identitySecret oldConsent newConsent oldTimestamp timestamp
        pathElements pathIndices :=
  fun h => consentCheckSat_not_of_downgrade oldConsent newConsent
    hold hnew hdown h.2.2.2.1

/-- Witness for C2: the downgrade from consent bits 5 to 3 admits no
satisfying assignment, exhibited at a concrete instantiation of the external
components. -/
theorem consent_downgrade_unsat_witness :
    ¬ Circuit.ConsentCircuitSat (fun _ _ => 0) (fun _ _ _ => 0)
        (fun _ _ _ _ => True) 0 0 0 0 0 0 5 3 0 0 (fun _ => 0) (fun _ => 0) :=
  consent_downgrade_unsat (fun _ _ => 0) (fun _ _ _ => 0) (fun _ _ _ _ => True)
    0 0 0 0 0 0 5 3 0 0 (fun _ => 0) (fun _ => 0)
    (by decide) (by decide) (by decide)

/-- C3 at the failing input: with currentTime = 1700000000 and the future
newTimestamp = 1700000001, the circuit's field subtraction
`currentTime - timestamp` wraps to P - 1, and the Num2Bits(33) input inside
LessEqThan(32) reduces mod P to 2^32 - 63072002 < 2^32, so the timeCheck
constraint — and the whole predicate — is satisfiable, contrary to the claim
that newTimestamp > currentTime admits no witness. -/
theorem future_timestamp_satisfiable :
    Circuit.ConsentCircuitSat (fun _ _ => 0) (fun _ _ _ => 0)
      (fun _ _ _ _ => True) 1700000000 0 0 0 0 0 0 0 0 1700000001
      (fun _ => 0) (fun _ => 0) := by
  refine ⟨trivial, rfl, rfl, ?_, ?_⟩
  · unfold Circuit.consentCheckSat Circuit.greaterEqThanOut1Sat
      Circuit.lessThanOut1Sat
    decide
  · unfold Circuit.timeCheckSat Circuit.lessEqThanOut1Sat
      Circuit.lessThanOut1Sat
    decide

end ZKCookies
